import Mathlib

/-!
# profile-endpoint: the fact fetcher and the /me handler of `src/app.js`

A shallow embedding of `getDynamicCatFact` (app.js 22-55) and of the `GET /me`
handler (app.js 58-77).

* JavaScript values are the inductive type `JSValue`.
* An expression that may throw is a value of `Except JSValue JSValue`:
  `.ok v` is normal completion with `v`, `.error e` is a throw of `e`.
  For the two `async` functions `.ok v` is a promise fulfilled with `v` and
  `.error e` a promise rejected with `e`.
* The outbound `axios.get` is the environment: its outcome is the input
  `AxiosOutcome` of the model.
* The wall clock (`new Date().toISOString()`) is an input of the handler.
* The `console.log / warn / error` lines write to the process log only and are
  left out, apart from the property read `error.message` of line 52.
-/

namespace ProfileEndpoint

/-! ## JavaScript values -/

/-- JavaScript values that a decoded JSON body or a thrown value is built from.
`num negative magnitude` is the integer-valued number with that sign and a
magnitude of at most 2^53 = 9007199254740992, the range in which every integer
is a double and prints as its decimal digits (`num true 0` is `-0`); `nan` is
`NaN`. Fractions, larger numbers, the infinities, functions, symbols and
objects with accessors or a changed prototype are not represented, so no
property of a value is callable unless it is inherited from the built-in
prototype. An object is its list of own properties, looked up from the
front. -/
inductive JSValue where
  | undefined
  | null
  | bool (b : Bool)
  | nan
  | num (negative : Bool) (magnitude : Fin 9007199254740993)
  | str (s : String)
  | arr (items : List JSValue)
  | obj (fields : List (String × JSValue))

/-- A `TypeError` instance raised by the engine, reduced to its `message`. -/
def typeError (message : String) : JSValue :=
  .obj [("message", .str message)]

/-- ToBoolean: the truthiness test of `if (x)`. -/
def toBoolean : JSValue → Bool
  | .undefined => false
  | .null => false
  | .bool b => b
  | .nan => false
  | .num _ magnitude => magnitude.val != 0
  | .str s => s != ""
  | .arr _ => true
  | .obj _ => true

/-- The test `typeof v === 'string'`. -/
def isString : JSValue → Bool
  | .str _ => true
  | _ => false

/-- Own-property lookup in a property list: the first entry with the key. -/
def lookupField (key : String) : List (String × JSValue) → Option JSValue
  | [] => none
  | (k, v) :: rest => if k = key then some v else lookupField key rest

/-- Property read `base.key`, for the keys app.js reads (`fact`, `code`,
`message`, `response`, `status`), none of which is an index, `length` or a
member of a built-in prototype. Reading a property of `undefined` or `null`
throws a `TypeError`; on any other primitive or on an array the result is
`undefined`; on an object it is the own property, or `undefined`. -/
def getProp (base : JSValue) (key : String) : Except JSValue JSValue :=
  match base with
  | .undefined =>
      .error (typeError ("Cannot read properties of undefined (reading \x27" ++ key ++ "\x27)"))
  | .null =>
      .error (typeError ("Cannot read properties of null (reading \x27" ++ key ++ "\x27)"))
  | .obj fields => .ok ((lookupField key fields).getD .undefined)
  | _ => .ok .undefined

/-- Strict equality `v === s` against a string `s`. -/
def strictEqualsString (v : JSValue) (s : String) : Bool :=
  match v with
  | .str t => t = s
  | _ => false

/-- Whether `needle` occurs as a contiguous run in the character list. -/
def includesChars (needle : List Char) : List Char → Bool
  | [] => needle.isEmpty
  | c :: cs => needle.isPrefixOf (c :: cs) || includesChars needle cs

/-- The method `String.prototype.includes(search)`: case-sensitive substring
test. -/
def stringIncludes (s search : String) : Bool :=
  includesChars search.data s.data

/-- The method call `recv.includes(search)` with a string argument. A string
receiver runs the substring test, an array receiver looks for an element
strictly equal to `search`; `undefined` and `null` have no properties and any
other receiver has no callable `includes`, so the call throws a `TypeError`. -/
def callIncludes (recv : JSValue) (search : String) : Except JSValue Bool :=
  match recv with
  | .str s => .ok (stringIncludes s search)
  | .arr items => .ok (items.any fun v => strictEqualsString v search)
  | .undefined =>
      .error (typeError "Cannot read properties of undefined (reading \x27includes\x27)")
  | .null =>
      .error (typeError "Cannot read properties of null (reading \x27includes\x27)")
  | _ => .error (typeError "error.message.includes is not a function")

/-- Number to string for an integer of magnitude at most 2^53: the decimal
digits, after a minus sign when the number is negative and not zero (`-0` prints
as "0"). -/
def numberToString (negative : Bool) (magnitude : Fin 9007199254740993) : String :=
  if negative && magnitude.val != 0 then "-" ++ toString magnitude.val
  else toString magnitude.val

/-- Join the rendered items with commas, as `Array.prototype.join` does. -/
def joinComma : List String → String
  | [] => ""
  | [s] => s
  | s :: rest => s ++ "," ++ joinComma rest

mutual
/-- ToString, as applied to a value substituted in a template literal. An
object is converted by its `toString` method: without an own `toString`
property that is the built-in one, which gives "[object Object]"; an own
`toString` property is not callable, the fallback `valueOf` is not callable
either or returns the object itself, and the conversion throws a `TypeError`.
An array is converted by the built-in `join`, which converts its items from
left to right and throws what an item throws. -/
def templateToString : JSValue → Except JSValue String
  | .undefined => .ok "undefined"
  | .null => .ok "null"
  | .bool true => .ok "true"
  | .bool false => .ok "false"
  | .nan => .ok "NaN"
  | .num negative magnitude => .ok (numberToString negative magnitude)
  | .str s => .ok s
  | .arr items =>
      match renderItems items with
      | .ok parts => .ok (joinComma parts)
      | .error thrown => .error thrown
  | .obj fields =>
      match lookupField "toString" fields with
      | none => .ok "[object Object]"
      | some _ => .error (typeError "Cannot convert object to primitive value")
/-- The items of an array as `join` renders them: `undefined` and `null` give
the empty string, any other item its ToString. -/
def renderItems : List JSValue → Except JSValue (List String)
  | [] => .ok []
  | .undefined :: rest =>
      match renderItems rest with
      | .ok parts => .ok ("" :: parts)
      | .error thrown => .error thrown
  | .null :: rest =>
      match renderItems rest with
      | .ok parts => .ok ("" :: parts)
      | .error thrown => .error thrown
  | v :: rest =>
      match templateToString v with
      | .error thrown => .error thrown
      | .ok part =>
          match renderItems rest with
          | .ok parts => .ok (part :: parts)
          | .error thrown => .error thrown
end

/-! ## Configuration and constants (app.js 5-16) -/

/-- The constant `EXTERNAL_API_TIMEOUT` of line 9, in milliseconds. -/
def EXTERNAL_API_TIMEOUT : Nat := 20000

/-- The static profile record type of lines 12-16. -/
structure ProfileRecord where
  email : String
  name : String
  stack : String
deriving DecidableEq, Repr

/-- The constant `API_PROFILE_DATA` of lines 12-16. -/
def API_PROFILE_DATA : ProfileRecord :=
  { email := "eacontent1@gmail.com", name := "Eniola Agboola", stack := "Node.js/Express" }

/-! ## The fact fetcher (app.js 22-55) -/

/-- Outcome of `await axios.get(CAT_FACT_API_URL, ...)`: the promise is
fulfilled with a response object whose `data` is the decoded body, or it is
rejected with a thrown value. -/
inductive AxiosOutcome where
  | resolved (data : JSValue)
  | rejected (error : JSValue)

/-- The string returned at line 40. -/
def fieldMissingMessage : String :=
  "Fact retrieval failed: Data field missing from external API."

/-- The initial value of `errorMessage`, line 43. -/
def connectionErrorMessage : String :=
  "Fact retrieval failed: External API connection error."

/-- The template literal of line 46. The quotient `EXTERNAL_API_TIMEOUT / 1000`
is exact (1000 divides 20000) and below 2^53, so the value substituted is that
integer, a number, whose conversion to a string cannot throw. -/
def timeoutMessage : String :=
  "Fact retrieval failed: External API timeout after "
    ++ numberToString false (Fin.ofNat (EXTERNAL_API_TIMEOUT / 1000)) ++ " seconds."

/-- The template literal of line 49, for the value of `error.response.status`;
it throws what the conversion of that value to a string throws. -/
def statusMessage (status : JSValue) : Except JSValue String := do
  let rendered ← templateToString status
  pure ("Fact retrieval failed: External API returned status " ++ rendered ++ ".")

/-- The `try` block, lines 24-40. -/
def tryBlock : AxiosOutcome → Except JSValue JSValue
  | .rejected error => .error error
  | .resolved data => do
      let factText ← getProp data "fact"
      if toBoolean factText then
        pure factText
      else
        pure (.str fieldMissingMessage)

/-- The condition of line 45:
`error.code === 'ECONNABORTED' || error.message.includes('timeout')`,
with the short-circuit of `||`. -/
def timeoutTest (error : JSValue) : Except JSValue Bool := do
  let code ← getProp error "code"
  if strictEqualsString code "ECONNABORTED" then
    pure true
  else do
    let message ← getProp error "message"
    callIncludes message "timeout"

/-- The `catch` block, lines 42-54. The read of `error.message` that ends each
branch is the second argument of `console.error` at line 52. -/
def catchBlock (error : JSValue) : Except JSValue JSValue := do
  let isTimeout ← timeoutTest error
  if isTimeout then
    let _ ← getProp error "message"
    pure (.str timeoutMessage)
  else do
    let response ← getProp error "response"
    if toBoolean response then
      let status ← getProp response "status"
      let errorMessage ← statusMessage status
      let _ ← getProp error "message"
      pure (.str errorMessage)
    else do
      let _ ← getProp error "message"
      pure (.str connectionErrorMessage)

/-- The function `getDynamicCatFact`, lines 22-55: what the `try` block throws
is handled by the `catch` block; what the `catch` block throws rejects the
promise of the function. -/
def getDynamicCatFact (outcome : AxiosOutcome) : Except JSValue JSValue :=
  match tryBlock outcome with
  | .ok value => .ok value
  | .error error => catchBlock error

/-! ## The `GET /me` handler (app.js 58-77) -/

/-- The object `finalResponseData` of lines 67-72. -/
structure ResponseEnvelope where
  status : String
  user : ProfileRecord
  timestamp : String
  fact : JSValue

/-- What `res.status(code).json(body)` sends. -/
structure HttpResponse where
  statusCode : Nat
  body : ResponseEnvelope

/-- Result of one run of the handler: it sends a response, or its promise is
rejected before `res` is used and nothing is sent by the handler. -/
inductive HandlerResult where
  | responded (response : HttpResponse)
  | rejectedWithoutResponse (reason : JSValue)

/-- The handler of `GET /me`, lines 58-77; `currentUtcTimestamp` is the value of
`new Date().toISOString()` at line 64. -/
def meHandler (outcome : AxiosOutcome) (currentUtcTimestamp : String) : HandlerResult :=
  match getDynamicCatFact outcome with
  | .error reason => .rejectedWithoutResponse reason
  | .ok catFact =>
      .responded
        { statusCode := 200
          body :=
            { status := "success"
              user := API_PROFILE_DATA
              timestamp := currentUtcTimestamp
              fact := catFact } }

end ProfileEndpoint


namespace ProfileEndpoint

/-! ## Auxiliary facts about the value model -/

theorem includesChars_iff_infix (needle hay : List Char) :
    includesChars needle hay = true ↔ needle <:+: hay := by
  induction hay with
  | nil => cases needle <;> simp [includesChars]
  | cons c cs ih =>
    simp only [includesChars, Bool.or_eq_true, ih, List.infix_cons_iff,
      List.isPrefixOf_iff_prefix]

theorem toBoolean_str (s : String) : toBoolean (.str s) = true ↔ s ≠ "" := by
  simp [toBoolean]

theorem numberToString_nonneg (magnitude : Fin 9007199254740993) :
    numberToString false magnitude = toString magnitude.val := by
  simp [numberToString]

theorem timeoutMessage_eq :
    timeoutMessage = "Fact retrieval failed: External API timeout after 20 seconds." := by
  rfl

/-- A property read that succeeds on one key succeeds on every key. -/
theorem getProp_ok_of_ok {base v : JSValue} {key : String} (h : getProp base key = .ok v)
    (other : String) : ∃ w, getProp base other = .ok w := by
  cases base <;> simp_all [getProp]

/-- A truthy value is neither `undefined` nor `null`, so its properties can be read. -/
theorem getProp_ok_of_truthy {base : JSValue} (h : toBoolean base = true) (key : String) :
    ∃ w, getProp base key = .ok w := by
  cases base <;> simp_all [getProp, toBoolean]

/-! ## Closed forms of the two blocks -/

theorem timeoutTest_of_code {e code : JSValue} (hcode : getProp e "code" = .ok code)
    (h : strictEqualsString code "ECONNABORTED" = true) : timeoutTest e = .ok true := by
  simp [timeoutTest, hcode, h, bind, Except.bind, pure, Except.pure]

theorem timeoutTest_of_message {e code : JSValue} {m : String}
    (hcode : getProp e "code" = .ok code)
    (h : strictEqualsString code "ECONNABORTED" = false)
    (hmsg : getProp e "message" = .ok (.str m)) :
    timeoutTest e = .ok (stringIncludes m "timeout") := by
  simp [timeoutTest, hcode, h, hmsg, callIncludes, bind, Except.bind]

/-- When the test of line 45 completes, `error` is neither `undefined` nor
`null`. -/
theorem getProp_ok_of_timeoutTest {e : JSValue} {b : Bool} (h : timeoutTest e = .ok b)
    (key : String) : ∃ w, getProp e key = .ok w := by
  cases e <;> simp_all [timeoutTest, getProp, bind, Except.bind]

theorem catchBlock_of_timeout {e : JSValue} (h : timeoutTest e = .ok true) :
    catchBlock e = .ok (.str timeoutMessage) := by
  obtain ⟨w, hw⟩ := getProp_ok_of_timeoutTest h "message"
  simp [catchBlock, h, hw, bind, Except.bind, pure, Except.pure]

/-- The status branch when the status converts to the string `rendered`. -/
theorem catchBlock_of_response {e resp status : JSValue} {rendered : String}
    (h : timeoutTest e = .ok false)
    (hresp : getProp e "response" = .ok resp) (htruthy : toBoolean resp = true)
    (hstatus : getProp resp "status" = .ok status)
    (hrendered : templateToString status = .ok rendered) :
    catchBlock e = .ok (.str
      ("Fact retrieval failed: External API returned status " ++ rendered ++ ".")) := by
  obtain ⟨w, hw⟩ := getProp_ok_of_ok hresp "message"
  simp [catchBlock, statusMessage, h, hresp, htruthy, hstatus, hrendered, hw, bind,
    Except.bind, pure, Except.pure]

/-- The status branch when the conversion of the status throws: the `catch`
block throws the same value. -/
theorem catchBlock_of_response_throw {e resp status thrown : JSValue}
    (h : timeoutTest e = .ok false)
    (hresp : getProp e "response" = .ok resp) (htruthy : toBoolean resp = true)
    (hstatus : getProp resp "status" = .ok status)
    (hthrown : templateToString status = .error thrown) :
    catchBlock e = .error thrown := by
  simp [catchBlock, statusMessage, h, hresp, htruthy, hstatus, hthrown, bind, Except.bind]

theorem catchBlock_of_no_response {e resp : JSValue} (h : timeoutTest e = .ok false)
    (hresp : getProp e "response" = .ok resp) (hfalsy : toBoolean resp = false) :
    catchBlock e = .ok (.str connectionErrorMessage) := by
  obtain ⟨w, hw⟩ := getProp_ok_of_ok hresp "message"
  simp [catchBlock, h, hresp, hfalsy, hw, bind, Except.bind, pure, Except.pure]

theorem getDynamicCatFact_rejected (e : JSValue) :
    getDynamicCatFact (.rejected e) = catchBlock e := by
  simp [getDynamicCatFact, tryBlock]

theorem getDynamicCatFact_resolved_truthy {data v : JSValue}
    (hfield : getProp data "fact" = .ok v) (htruthy : toBoolean v = true) :
    getDynamicCatFact (.resolved data) = .ok v := by
  simp [getDynamicCatFact, tryBlock, hfield, htruthy, bind, Except.bind, pure, Except.pure]

theorem getDynamicCatFact_resolved_falsy {data v : JSValue}
    (hfield : getProp data "fact" = .ok v) (hfalsy : toBoolean v = false) :
    getDynamicCatFact (.resolved data) = .ok (.str fieldMissingMessage) := by
  simp [getDynamicCatFact, tryBlock, hfield, hfalsy, bind, Except.bind, pure, Except.pure]

/-- The handler answers 200 with the envelope around whatever the fetcher
returned. -/
theorem meHandler_of_ok {o : AxiosOutcome} {v : JSValue} (h : getDynamicCatFact o = .ok v)
    (now : String) :
    meHandler o now = .responded
      { statusCode := 200
        body := { status := "success", user := API_PROFILE_DATA, timestamp := now, fact := v } } := by
  simp [meHandler, h]

/-- On a fulfilled request the fetcher always returns: a body of `undefined` or
`null` makes line 32 throw, and the `catch` block turns that `TypeError` into
the connection-error message. -/
theorem getDynamicCatFact_resolved_returns (data : JSValue) :
    ∃ v, getDynamicCatFact (.resolved data) = .ok v := by
  cases hget : getProp data "fact" with
  | error err =>
    cases data <;> simp [getProp] at hget
    · exact ⟨.str connectionErrorMessage, rfl⟩
    · exact ⟨.str connectionErrorMessage, rfl⟩
  | ok v =>
    cases hb : toBoolean v
    · exact ⟨_, getDynamicCatFact_resolved_falsy hget hb⟩
    · exact ⟨_, getDynamicCatFact_resolved_truthy hget hb⟩

/-- Closed form of the `catch` block on an error whose `message` is the string
`m`, with `code`, `resp` and `status` the values of `error.code`,
`error.response` and `error.response.status`: the timeout test is tried first,
then the response, then the default; in the status branch the result is that of
the template literal of line 49, which throws when the status does not convert
to a string. -/
theorem getDynamicCatFact_priority_order (e code resp status : JSValue) (m : String)
    (hmsg : getProp e "message" = .ok (.str m))
    (hcode : getProp e "code" = .ok code)
    (hresp : getProp e "response" = .ok resp)
    (hstatus : toBoolean resp = true → getProp resp "status" = .ok status) :
    getDynamicCatFact (.rejected e) =
      if strictEqualsString code "ECONNABORTED" = true ∨ stringIncludes m "timeout" = true then
        .ok (.str "Fact retrieval failed: External API timeout after 20 seconds.")
      else if toBoolean resp = true then
        match templateToString status with
        | .ok rendered =>
            .ok (.str ("Fact retrieval failed: External API returned status " ++ rendered ++ "."))
        | .error thrown => .error thrown
      else
        .ok (.str "Fact retrieval failed: External API connection error.") := by
  rw [getDynamicCatFact_rejected]
  cases hc : strictEqualsString code "ECONNABORTED"
  · cases hi : stringIncludes m "timeout"
    · have ht : timeoutTest e = .ok false := by
        rw [timeoutTest_of_message hcode hc hmsg, hi]
      cases hr : toBoolean resp
      · rw [catchBlock_of_no_response ht hresp hr]
        simp [connectionErrorMessage]
      · cases hs : templateToString status with
        | ok rendered =>
          rw [catchBlock_of_response ht hresp hr (hstatus hr) hs]
          simp
        | error thrown =>
          rw [catchBlock_of_response_throw ht hresp hr (hstatus hr) hs]
          simp
    · have ht : timeoutTest e = .ok true := by
        rw [timeoutTest_of_message hcode hc hmsg, hi]
      rw [catchBlock_of_timeout ht, timeoutMessage_eq]
      simp
  · rw [catchBlock_of_timeout (timeoutTest_of_code hcode hc), timeoutMessage_eq]
    simp

/-! ## The claims -/

/-- C1, at a failing input. When `axios.get` rejects with the value
`{ code: "ERR_NETWORK" }`, which has no `message`, the call
`error.message.includes` of line 45 throws a `TypeError` inside the `catch`
block, so `getDynamicCatFact` rejects and returns no value. -/
theorem C1_rejects_on_error_without_message :
    getDynamicCatFact (.rejected (.obj [("code", .str "ERR_NETWORK")]))
      = .error (typeError "Cannot read properties of undefined (reading \x27includes\x27)") ∧
    ∀ v, getDynamicCatFact (.rejected (.obj [("code", .str "ERR_NETWORK")])) ≠ .ok v := by
  refine ⟨rfl, ?_⟩
  intro v h
  have h2 : getDynamicCatFact (.rejected (.obj [("code", .str "ERR_NETWORK")]))
      = .error (typeError "Cannot read properties of undefined (reading \x27includes\x27)") := rfl
  rw [h2] at h
  cases h

/-- C2. For every successful upstream response whose body is an object carrying a
non-empty (truthy; for a string: different from the empty string) `fact`
field, `getDynamicCatFact` returns exactly that value, and the `/me` handler
answers with that same value in the `fact` field of its body. -/
theorem C2_fact_returned_verbatim (fields : List (String × JSValue)) (v : JSValue)
    (now : String) (hfield : lookupField "fact" fields = some v)
    (hnonempty : toBoolean v = true) :
    getDynamicCatFact (.resolved (.obj fields)) = .ok v ∧
    meHandler (.resolved (.obj fields)) now = .responded
      { statusCode := 200
        body := { status := "success", user := API_PROFILE_DATA, timestamp := now, fact := v } } := by
  have hget : getProp (.obj fields) "fact" = .ok v := by simp [getProp, hfield]
  have hres := getDynamicCatFact_resolved_truthy hget hnonempty
  exact ⟨hres, meHandler_of_ok hres now⟩

/-- Witness of C2: the body `{ fact: "Cats sleep a lot.", length: 17 }`. -/
theorem C2_fact_returned_verbatim_witness :
    lookupField "fact" [("fact", .str "Cats sleep a lot."), ("length", .num false 17)]
      = some (.str "Cats sleep a lot.") ∧
    toBoolean (.str "Cats sleep a lot.") = true ∧
    getDynamicCatFact
        (.resolved (.obj [("fact", .str "Cats sleep a lot."), ("length", .num false 17)]))
      = .ok (.str "Cats sleep a lot.") ∧
    meHandler (.resolved (.obj [("fact", .str "Cats sleep a lot."), ("length", .num false 17)]))
        "2025-10-19T12:00:00.000Z"
      = .responded
          { statusCode := 200
            body := { status := "success", user := API_PROFILE_DATA,
                      timestamp := "2025-10-19T12:00:00.000Z",
                      fact := .str "Cats sleep a lot." } } :=
  ⟨rfl, rfl,
    C2_fact_returned_verbatim [("fact", .str "Cats sleep a lot."), ("length", .num false 17)]
      (.str "Cats sleep a lot.") "2025-10-19T12:00:00.000Z" rfl rfl⟩

/-- C3. For every successful upstream response whose decoded body is an object in
which the `fact` field is absent or is the empty string, `getDynamicCatFact`
returns exactly the field-missing message. -/
theorem C3_missing_or_empty_fact (fields : List (String × JSValue))
    (h : lookupField "fact" fields = none ∨ lookupField "fact" fields = some (.str "")) :
    getDynamicCatFact (.resolved (.obj fields))
      = .ok (.str "Fact retrieval failed: Data field missing from external API.") := by
  rcases h with h | h
  · exact getDynamicCatFact_resolved_falsy (v := .undefined) (by simp [getProp, h]) rfl
  · exact getDynamicCatFact_resolved_falsy (v := .str "") (by simp [getProp, h]) rfl

/-- Witness of C3: the body `{ length: 0 }`, which has no `fact` field. -/
theorem C3_missing_or_empty_fact_witness :
    lookupField "fact" [("length", .num false 0)] = none ∧
    getDynamicCatFact (.resolved (.obj [("length", .num false 0)]))
      = .ok (.str "Fact retrieval failed: Data field missing from external API.") :=
  ⟨rfl, C3_missing_or_empty_fact [("length", .num false 0)] (Or.inl rfl)⟩

/-- C4, at the failing inputs. For a fulfilled request whose body decodes to
`null` or to `undefined`, line 32 throws and `getDynamicCatFact` returns the
connection-error message, not the field-missing message; for a body that is a
bare string or a number it returns the field-missing message. -/
theorem C4_null_body_reported_as_connection_error :
    getDynamicCatFact (.resolved .null)
      = .ok (.str "Fact retrieval failed: External API connection error.") ∧
    getDynamicCatFact (.resolved .undefined)
      = .ok (.str "Fact retrieval failed: External API connection error.") ∧
    "Fact retrieval failed: External API connection error."
      ≠ "Fact retrieval failed: Data field missing from external API." ∧
    getDynamicCatFact (.resolved (.str "<html></html>"))
      = .ok (.str "Fact retrieval failed: Data field missing from external API.") ∧
    getDynamicCatFact (.resolved (.num false 7))
      = .ok (.str "Fact retrieval failed: Data field missing from external API.") :=
  ⟨rfl, rfl, by decide, rfl, rfl⟩

/-- C5, counterexample. The error
`{ code: "ECONNABORTED", message: "timeout of 20000ms exceeded", response: { status: 504 } }`
carries a response with the error status 504, yet `getDynamicCatFact` returns
the timeout message and not the status message: the timeout test of line 45 is
tried first. -/
theorem C5_status_not_reported_on_timeout :
    getProp (.obj [("status", .num false 504)]) "status" = .ok (.num false 504) ∧
    getDynamicCatFact
        (.rejected (.obj [("code", .str "ECONNABORTED"),
          ("message", .str "timeout of 20000ms exceeded"),
          ("response", .obj [("status", .num false 504)])]))
      = .ok (.str "Fact retrieval failed: External API timeout after 20 seconds.") ∧
    "Fact retrieval failed: External API timeout after 20 seconds."
      ≠ "Fact retrieval failed: External API returned status 504." :=
  ⟨rfl, rfl, by decide⟩

/-- C5, amended. For every failure of the outbound call whose error has a string
`message`, does not match the timeout test (`error.code` is not ECONNABORTED
and the message does not contain "timeout") and carries a response
(`error.response` is truthy) with the status code `c` (any 4xx or 5xx, and
any other natural number up to 2^53 as well), `getDynamicCatFact` returns
exactly "Fact retrieval failed: External API returned status c." with `c` in
decimal. -/
theorem C5_status_message (e code resp : JSValue) (m : String) (c : Fin 9007199254740993)
    (hmsg : getProp e "message" = .ok (.str m))
    (hcode : getProp e "code" = .ok code)
    (hnotAborted : strictEqualsString code "ECONNABORTED" = false)
    (hnotTimeout : stringIncludes m "timeout" = false)
    (hresp : getProp e "response" = .ok resp)
    (hreceived : toBoolean resp = true)
    (hstatus : getProp resp "status" = .ok (.num false c)) :
    getDynamicCatFact (.rejected e)
      = .ok (.str ("Fact retrieval failed: External API returned status "
          ++ toString c.val ++ ".")) := by
  rw [getDynamicCatFact_rejected]
  have ht : timeoutTest e = .ok false := by
    rw [timeoutTest_of_message hcode hnotAborted hmsg, hnotTimeout]
  have hrendered : templateToString (.num false c) = .ok (toString c.val) := by
    simp only [templateToString, numberToString_nonneg]
  exact catchBlock_of_response ht hresp hreceived hstatus hrendered

/-- Witness of the amended C5: the error axios raises on a 404 response. -/
theorem C5_status_message_witness :
    strictEqualsString (.str "ERR_BAD_REQUEST") "ECONNABORTED" = false ∧
    stringIncludes "Request failed with status code 404" "timeout" = false ∧
    toBoolean (.obj [("status", .num false 404)]) = true ∧
    getProp (.obj [("status", .num false 404)]) "status" = .ok (.num false 404) ∧
    getDynamicCatFact
        (.rejected (.obj [("message", .str "Request failed with status code 404"),
          ("code", .str "ERR_BAD_REQUEST"),
          ("response", .obj [("status", .num false 404)])]))
      = .ok (.str "Fact retrieval failed: External API returned status 404.") :=
  ⟨rfl, rfl, rfl, rfl,
    C5_status_message
      (.obj [("message", .str "Request failed with status code 404"),
        ("code", .str "ERR_BAD_REQUEST"), ("response", .obj [("status", .num false 404)])])
      (.str "ERR_BAD_REQUEST") (.obj [("status", .num false 404)])
      "Request failed with status code 404" 404
      rfl rfl rfl rfl rfl rfl rfl⟩

/-- C6. For every failure of the outbound call that is a timeout, meaning that
`error.code` is the string ECONNABORTED or that `error.message` is a string
containing "timeout", `getDynamicCatFact` returns exactly the timeout message;
the number 20 in it is `EXTERNAL_API_TIMEOUT / 1000` with
`EXTERNAL_API_TIMEOUT = 20000`. -/
theorem C6_timeout_message (e : JSValue)
    (h : getProp e "code" = .ok (.str "ECONNABORTED") ∨
      ∃ m, getProp e "message" = .ok (.str m) ∧ stringIncludes m "timeout" = true) :
    getDynamicCatFact (.rejected e)
      = .ok (.str "Fact retrieval failed: External API timeout after 20 seconds.") ∧
    "Fact retrieval failed: External API timeout after 20 seconds."
      = "Fact retrieval failed: External API timeout after "
          ++ toString (EXTERNAL_API_TIMEOUT / 1000) ++ " seconds." ∧
    EXTERNAL_API_TIMEOUT = 20000 := by
  refine ⟨?_, by decide, rfl⟩
  rw [getDynamicCatFact_rejected, ← timeoutMessage_eq]
  apply catchBlock_of_timeout
  rcases h with h | ⟨m, hm, hinc⟩
  · exact timeoutTest_of_code h rfl
  · obtain ⟨code, hcode⟩ := getProp_ok_of_ok hm "code"
    cases hc : strictEqualsString code "ECONNABORTED"
    · rw [timeoutTest_of_message hcode hc hm, hinc]
    · exact timeoutTest_of_code hcode hc

/-- Witness of C6: the error axios raises when the 20000 ms elapse. -/
theorem C6_timeout_message_witness :
    getProp (.obj [("message", .str "timeout of 20000ms exceeded"),
        ("code", .str "ECONNABORTED")]) "code" = .ok (.str "ECONNABORTED") ∧
    getDynamicCatFact
        (.rejected (.obj [("message", .str "timeout of 20000ms exceeded"),
          ("code", .str "ECONNABORTED")]))
      = .ok (.str "Fact retrieval failed: External API timeout after 20 seconds.") :=
  ⟨rfl,
    (C6_timeout_message
      (.obj [("message", .str "timeout of 20000ms exceeded"), ("code", .str "ECONNABORTED")])
      (Or.inl rfl)).1⟩

/-- C7, at a failing input. The rejection value `{ code: "ERR_NETWORK" }` is a
connection-level failure that carries no response (`error.response` is
`undefined`) and is not a timeout (its `code` is not ECONNABORTED and it has no
`message`, so no message that contains "timeout"); for it `getDynamicCatFact`
does not return the connection-error message: line 45 throws a `TypeError` and
the function rejects. -/
theorem C7_connection_failure_without_message_rejects :
    getProp (.obj [("code", .str "ERR_NETWORK")]) "response" = .ok .undefined ∧
    toBoolean .undefined = false ∧
    getProp (.obj [("code", .str "ERR_NETWORK")]) "code" = .ok (.str "ERR_NETWORK") ∧
    strictEqualsString (.str "ERR_NETWORK") "ECONNABORTED" = false ∧
    getProp (.obj [("code", .str "ERR_NETWORK")]) "message" = .ok .undefined ∧
    catchBlock (.obj [("code", .str "ERR_NETWORK")])
      = .error (typeError "Cannot read properties of undefined (reading \x27includes\x27)") ∧
    getDynamicCatFact (.rejected (.obj [("code", .str "ERR_NETWORK")]))
      ≠ .ok (.str "Fact retrieval failed: External API connection error.") := by
  refine ⟨rfl, rfl, rfl, rfl, rfl, rfl, ?_⟩
  intro h
  have h2 : getDynamicCatFact (.rejected (.obj [("code", .str "ERR_NETWORK")]))
      = .error (typeError "Cannot read properties of undefined (reading \x27includes\x27)") := rfl
  rw [h2] at h
  cases h

/-- C8, at a failing input. When the outbound call fails with
`{ code: "ERR_NETWORK" }` (a connection failure without a `message`) the
fetcher rejects, so the promise of the `/me` handler is rejected at line 61,
before `res.status(200).json(...)` is reached: the handler sends no response,
with status 200 or any other. -/
theorem C8_me_sends_no_response_on_error_without_message :
    meHandler (.rejected (.obj [("code", .str "ERR_NETWORK")])) "2025-10-19T12:00:00.000Z"
      = .rejectedWithoutResponse
          (typeError "Cannot read properties of undefined (reading \x27includes\x27)") ∧
    ∀ response,
      meHandler (.rejected (.obj [("code", .str "ERR_NETWORK")])) "2025-10-19T12:00:00.000Z"
        ≠ .responded response := by
  refine ⟨rfl, ?_⟩
  intro response h
  have h2 : meHandler (.rejected (.obj [("code", .str "ERR_NETWORK")]))
      "2025-10-19T12:00:00.000Z"
      = .rejectedWithoutResponse
          (typeError "Cannot read properties of undefined (reading \x27includes\x27)") := rfl
  rw [h2] at h
  cases h

/-- C9, at a failing input. For the fulfilled body `{ fact: 42 }` the fetcher
returns the number 42, which is not a string, and the handler puts that number
in the `fact` field of its body. -/
theorem C9_number_fact_returned_as_number :
    getDynamicCatFact (.resolved (.obj [("fact", .num false 42)])) = .ok (.num false 42) ∧
    isString (.num false 42) = false ∧
    meHandler (.resolved (.obj [("fact", .num false 42)])) "2025-10-19T12:00:00.000Z"
      = .responded
          { statusCode := 200
            body := { status := "success", user := API_PROFILE_DATA,
                      timestamp := "2025-10-19T12:00:00.000Z", fact := .num false 42 } } :=
  ⟨rfl, rfl, rfl⟩

/-- C10, at a failing input. The caught error
`{ message: "x", response: { status: { toString: null } } }` has a string
message, does not match the timeout test and carries a response, so the
priority order selects the status message; but the template literal of line 49
cannot convert that status to a string and throws a `TypeError` inside the
`catch` block: `getDynamicCatFact` rejects and returns none of the three
messages. -/
theorem C10_status_template_throws :
    getProp (.obj [("message", .str "x"),
        ("response", .obj [("status", .obj [("toString", .null)])])]) "message"
      = .ok (.str "x") ∧
    timeoutTest (.obj [("message", .str "x"),
        ("response", .obj [("status", .obj [("toString", .null)])])]) = .ok false ∧
    toBoolean (.obj [("status", .obj [("toString", .null)])]) = true ∧
    getDynamicCatFact
        (.rejected (.obj [("message", .str "x"),
          ("response", .obj [("status", .obj [("toString", .null)])])]))
      = .error (typeError "Cannot convert object to primitive value") ∧
    ∀ v,
      getDynamicCatFact
          (.rejected (.obj [("message", .str "x"),
            ("response", .obj [("status", .obj [("toString", .null)])])]))
        ≠ .ok v := by
  refine ⟨rfl, rfl, rfl, rfl, ?_⟩
  intro v h
  have h2 : getDynamicCatFact
      (.rejected (.obj [("message", .str "x"),
        ("response", .obj [("status", .obj [("toString", .null)])])]))
      = .error (typeError "Cannot convert object to primitive value") := rfl
  rw [h2] at h
  cases h

end ProfileEndpoint
